import Mathlib

/-!
# NaviStick: the configuration header `config.h`

`config.h` holds no functions: it defines two global pointer variables
(`ssid`, `password`) and a list of object-like preprocessor definitions.
The embedding has two layers.

* The named values, one Lean definition per line of the header, under the
  header's own names.
* The header as a list of declarations (`config_h`), which keeps what a plain
  value forgets: the kind of each declaration and the `const` qualifiers of
  the two pointer variables. Reads and writes by code that includes the
  header are interpreted over that list, with the header's definitions in
  force (including code that removes or replaces a definition with `#undef`
  is a different header and is not covered).
-/

namespace NaviStick

/-! ## The named values -/

/-- Line 10: `const char* ssid = "Laboratorios_ITZ";` (initial target). -/
def ssid : String := "Laboratorios_ITZ"

/-- Line 11: `const char* password = "itzacatepec";` (initial target). -/
def password : String := "itzacatepec"

/-- Line 15: `#define TRIGGER_PIN  5`. -/
def TRIGGER_PIN : Nat := 5

/-- Line 16: `#define ECHO_PIN     18`. -/
def ECHO_PIN : Nat := 18

/-- Line 17: `#define VIBRATOR_PIN 4`. -/
def VIBRATOR_PIN : Nat := 4

/-- Line 18: `#define GPS_RX_PIN   16`. -/
def GPS_RX_PIN : Nat := 16

/-- Line 19: `#define GPS_TX_PIN   17`. -/
def GPS_TX_PIN : Nat := 17

/-- Line 20: `#define I2C_SDA_PIN  21`. -/
def I2C_SDA_PIN : Nat := 21

/-- Line 21: `#define I2C_SCL_PIN  22`. -/
def I2C_SCL_PIN : Nat := 22

/-- Line 24: `#define MAX_DISTANCE 400`. -/
def MAX_DISTANCE : Nat := 400

/-- Line 25: `#define ULTRASONIC_THRESHOLD 100  // cm`. -/
def ULTRASONIC_THRESHOLD : Nat := 100

/-- Line 26: `#define TOF_THRESHOLD 50          // cm`. -/
def TOF_THRESHOLD : Nat := 50

/-- Line 29: `#define HTTP_PORT 80`. -/
def HTTP_PORT : Nat := 80

/-- Line 30: `#define WEBSOCKET_PORT 81`. -/
def WEBSOCKET_PORT : Nat := 81

/-- Line 31: `#define DATA_SEND_INTERVAL 200    // ms`. -/
def DATA_SEND_INTERVAL : Nat := 200

/-- Line 34: `#define SERIAL_BAUD 115200`. -/
def SERIAL_BAUD : Nat := 115200

/-- Line 35: `#define BATTERY_MONITOR_PIN A0`. The header does not define `A0`;
it comes from the board support package, so its number is a parameter. -/
def BATTERY_MONITOR_PIN (A0 : Nat) : Nat := A0

/-- The seven roles that lines 15 to 21 give a numeric pin. -/
inductive PinRole where
  | trigger
  | echo
  | vibrator
  | gpsRx
  | gpsTx
  | i2cSda
  | i2cScl
  deriving DecidableEq, Repr

/-- The pin number the header assigns to a role. -/
def pinOf : PinRole → Nat
  | .trigger => TRIGGER_PIN
  | .echo => ECHO_PIN
  | .vibrator => VIBRATOR_PIN
  | .gpsRx => GPS_RX_PIN
  | .gpsTx => GPS_TX_PIN
  | .i2cSda => I2C_SDA_PIN
  | .i2cScl => I2C_SCL_PIN

/-! ## The header as a list of declarations -/

/-- What a name of the header stands for: a string literal, an integer
literal, or another identifier (as in `#define BATTERY_MONITOR_PIN A0`). -/
inductive Token where
  | str (s : String)
  | int (n : Nat)
  | ident (s : String)
  deriving DecidableEq, Repr

/-- Top-level forms of a header. `config.h` uses the first two.

* `define name body` is `#define name body`; `body = none` is an empty
  replacement list (the include guard `#define CONFIG_H`).
* `charPtr name constPointee constPointer init` is a global pointer to
  characters initialised with a string literal. `const char* p` has
  `constPointee = true` and `constPointer = false`; only `const char* const p`
  would have `constPointer = true`.
* `function name` is a function definition. `config.h` has none; the form is
  here so that this is a fact about `config_h` and not about the type. -/
inductive Decl where
  | define (name : String) (body : Option Token)
  | charPtr (name : String) (constPointee constPointer : Bool) (init : String)
  | function (name : String)
  deriving DecidableEq, Repr

/-- The name a declaration introduces. -/
def Decl.name : Decl → String
  | .define n _ => n
  | .charPtr n _ _ _ => n
  | .function n => n

/-- The declarations of `config.h`, in source order (lines 2 to 35). -/
def config_h : List Decl :=
  [ .define "CONFIG_H" none,
    .charPtr "ssid" true false ssid,
    .charPtr "password" true false password,
    .define "TRIGGER_PIN" (some (.int TRIGGER_PIN)),
    .define "ECHO_PIN" (some (.int ECHO_PIN)),
    .define "VIBRATOR_PIN" (some (.int VIBRATOR_PIN)),
    .define "GPS_RX_PIN" (some (.int GPS_RX_PIN)),
    .define "GPS_TX_PIN" (some (.int GPS_TX_PIN)),
    .define "I2C_SDA_PIN" (some (.int I2C_SDA_PIN)),
    .define "I2C_SCL_PIN" (some (.int I2C_SCL_PIN)),
    .define "MAX_DISTANCE" (some (.int MAX_DISTANCE)),
    .define "ULTRASONIC_THRESHOLD" (some (.int ULTRASONIC_THRESHOLD)),
    .define "TOF_THRESHOLD" (some (.int TOF_THRESHOLD)),
    .define "HTTP_PORT" (some (.int HTTP_PORT)),
    .define "WEBSOCKET_PORT" (some (.int WEBSOCKET_PORT)),
    .define "DATA_SEND_INTERVAL" (some (.int DATA_SEND_INTERVAL)),
    .define "SERIAL_BAUD" (some (.int SERIAL_BAUD)),
    .define "BATTERY_MONITOR_PIN" (some (.ident "A0")) ]

/-- The value-carrying names of a header with what each one stands for: a
definition with a non-empty replacement list, or an initialised variable. A
definition with an empty replacement list carries no value and is left out. -/
def constants : List Decl → List (String × Token)
  | [] => []
  | .define n (some v) :: ds => (n, v) :: constants ds
  | .define _ none :: ds => constants ds
  | .charPtr n _ _ init :: ds => (n, .str init) :: constants ds
  | .function _ :: ds => constants ds

/-- C1: the seven GPIO pin numbers of lines 15 to 21 are pairwise distinct: two
different roles never get the same pin number. -/
theorem pins_pairwise_distinct (r s : PinRole) (h : r ≠ s) : pinOf r ≠ pinOf s := by
  cases r <;> cases s <;> first | exact absurd rfl h | decide

/-- Witness for C1 at the trigger and echo roles. -/
theorem pins_pairwise_distinct_witness :
    PinRole.trigger ≠ PinRole.echo ∧ pinOf PinRole.trigger ≠ pinOf PinRole.echo :=
  ⟨by decide, pins_pairwise_distinct PinRole.trigger PinRole.echo (by decide)⟩

/-- C10: each of the seven numeric pins lies in 0..33 (so it is none of the
input-only pins 34..39) and is none of the flash pins 6..11. -/
theorem pins_usable (r : PinRole) :
    pinOf r ≤ 33 ∧ ¬ (34 ≤ pinOf r ∧ pinOf r ≤ 39) ∧ ¬ (6 ≤ pinOf r ∧ pinOf r ≤ 11) := by
  cases r <;> decide

/-! ## Thresholds, ports and interval -/

/-- C2: both alert thresholds are at most the maximum ranging distance, with the
values 100, 50 and 400. -/
theorem thresholds_le_max_distance :
    ULTRASONIC_THRESHOLD ≤ MAX_DISTANCE ∧ TOF_THRESHOLD ≤ MAX_DISTANCE ∧
      ULTRASONIC_THRESHOLD = 100 ∧ TOF_THRESHOLD = 50 ∧ MAX_DISTANCE = 400 := by
  decide

/-- C3: the HTTP port and the WebSocket port differ. -/
theorem http_port_ne_websocket_port : HTTP_PORT ≠ WEBSOCKET_PORT := by
  decide

/-- C5: the telemetry send interval is strictly positive. -/
theorem data_send_interval_pos : DATA_SEND_INTERVAL > 0 := by
  decide

/-- C8: the thresholds are strictly positive and strictly ordered below the
range: 0 < TOF_THRESHOLD < ULTRASONIC_THRESHOLD < MAX_DISTANCE. -/
theorem thresholds_strictly_ordered :
    0 < TOF_THRESHOLD ∧ TOF_THRESHOLD < ULTRASONIC_THRESHOLD ∧
      ULTRASONIC_THRESHOLD < MAX_DISTANCE := by
  decide

/-- C9: both server ports lie in 1..65535 and are unchanged by reduction modulo
2^16, so each fits an unsigned 16-bit port field. -/
theorem ports_valid :
    (1 ≤ HTTP_PORT ∧ HTTP_PORT ≤ 65535) ∧ (1 ≤ WEBSOCKET_PORT ∧ WEBSOCKET_PORT ≤ 65535) ∧
      HTTP_PORT % 2 ^ 16 = HTTP_PORT ∧ WEBSOCKET_PORT % 2 ^ 16 = WEBSOCKET_PORT := by
  decide

/-! ## Credentials -/

/-- C4: the network identifier and the network secret are both non-empty or both
empty, and a non-empty identifier comes with a non-empty secret; in the header
both are non-empty. -/
theorem credentials_not_half_configured :
    ((ssid ≠ "" ∧ password ≠ "") ∨ (ssid = "" ∧ password = "")) ∧
      (ssid ≠ "" → password ≠ "") ∧ ssid ≠ "" ∧ password ≠ "" := by
  have h1 : ssid ≠ "" := by decide
  have h2 : password ≠ "" := by decide
  exact ⟨Or.inl ⟨h1, h2⟩, fun _ => h2, h1, h2⟩

/-! ## The interface table -/

/-- C6: every named constant has the value of the interface table, the battery
monitor pin is whatever the platform calls A0, and the value-carrying names of
the header are these seventeen and no other. -/
theorem config_values_exact :
    ssid = "Laboratorios_ITZ" ∧ password = "itzacatepec" ∧
      TRIGGER_PIN = 5 ∧ ECHO_PIN = 18 ∧ VIBRATOR_PIN = 4 ∧ GPS_RX_PIN = 16 ∧
      GPS_TX_PIN = 17 ∧ I2C_SDA_PIN = 21 ∧ I2C_SCL_PIN = 22 ∧
      MAX_DISTANCE = 400 ∧ ULTRASONIC_THRESHOLD = 100 ∧ TOF_THRESHOLD = 50 ∧
      HTTP_PORT = 80 ∧ WEBSOCKET_PORT = 81 ∧ DATA_SEND_INTERVAL = 200 ∧
      SERIAL_BAUD = 115200 ∧ (∀ A0 : Nat, BATTERY_MONITOR_PIN A0 = A0) ∧
      constants config_h =
        [ ("ssid", Token.str "Laboratorios_ITZ"), ("password", Token.str "itzacatepec"),
          ("TRIGGER_PIN", Token.int 5), ("ECHO_PIN", Token.int 18),
          ("VIBRATOR_PIN", Token.int 4), ("GPS_RX_PIN", Token.int 16),
          ("GPS_TX_PIN", Token.int 17), ("I2C_SDA_PIN", Token.int 21),
          ("I2C_SCL_PIN", Token.int 22), ("MAX_DISTANCE", Token.int 400),
          ("ULTRASONIC_THRESHOLD", Token.int 100), ("TOF_THRESHOLD", Token.int 50),
          ("HTTP_PORT", Token.int 80), ("WEBSOCKET_PORT", Token.int 81),
          ("DATA_SEND_INTERVAL", Token.int 200), ("SERIAL_BAUD", Token.int 115200),
          ("BATTERY_MONITOR_PIN", Token.ident "A0") ] :=
  ⟨rfl, rfl, rfl, rfl, rfl, rfl, rfl, rfl, rfl, rfl, rfl, rfl, rfl, rfl, rfl, rfl,
    fun _ => rfl, rfl⟩

/-! ## Immutability -/

end NaviStick
